import Mathlib

/-
  Verification of the pothole-detection frame pipeline (src/app.py).

  The development shallowly embeds the function process_frame (app.py lines
  158-230) and the session state it mutates.  Machine floats of the Python
  code are modelled as rationals; the Python int() conversion is modelled as
  truncation toward zero; the outcome of the one network call (requests.post)
  and of cv2.imencode is an explicit input of each step.
-/

/-- One detection as returned by the remote endpoint (JSON object with a
class name, a confidence and a box in transmission coordinates). -/
structure Detection where
  class_name : String
  confidence : ℚ
  x_min : ℚ
  y_min : ℚ
  x_max : ℚ
  y_max : ℚ
deriving DecidableEq

/-- Python int() applied to a float value: truncation toward zero. -/
def pyInt (q : ℚ) : ℤ := q.num.tdiv q.den

/-- One drawing operation on a frame: the rectangle of app.py line 214
together with the label data of lines 215-216. -/
structure Ann where
  x1 : ℤ
  y1 : ℤ
  x2 : ℤ
  y2 : ℤ
  label_class : String
  label_conf : ℚ
deriving DecidableEq

/-- A raster frame: its shape (shape[0] = height, shape[1] = width, 3
channels) and the list of drawing operations applied to its buffer. -/
structure Frame where
  height : ℕ
  width : ℕ
  drawOps : List Ann
deriving DecidableEq

/-- numpy size of a 3-channel frame; 0 exactly for an empty frame. -/
def Frame.size (f : Frame) : ℕ := f.height * f.width * 3

/-- Lines 206-207 and 212-213: the box of a detection rescaled from the
320x320 transmission frame to a W x H original frame, each coordinate
converted with int(). -/
def scaledBox (W H : ℕ) (d : Detection) : ℤ × ℤ × ℤ × ℤ :=
  (pyInt (d.x_min * ((W : ℚ) / 320)), pyInt (d.y_min * ((H : ℚ) / 320)),
   pyInt (d.x_max * ((W : ℚ) / 320)), pyInt (d.y_max * ((H : ℚ) / 320)))

/-- The drawing operation of lines 214-216 for one detection. -/
def mkAnn (W H : ℕ) (d : Detection) : Ann :=
  ⟨(scaledBox W H d).1, (scaledBox W H d).2.1, (scaledBox W H d).2.2.1,
   (scaledBox W H d).2.2.2, d.class_name, d.confidence⟩

/-- The confidence threshold hard-coded at line 210. -/
def CONFIDENCE_THRESHOLD : ℚ := 3 / 10

/-- The sublist of detections whose confidence strictly exceeds a
threshold; stated for comparison with the draw loop of lines 209-216. -/
def qualifyingDetections (t : ℚ) (ds : List Detection) : List Detection :=
  ds.filter (fun d => decide (d.confidence > t))

/-- The for-loop of lines 209-216: walks the detection list in order,
draws each detection above the threshold and records whether any
qualified (the potholes_detected flag of lines 208/211). -/
def drawLoop (W H : ℕ) (t : ℚ) : List Detection → List Ann → Bool → List Ann × Bool
  | [], anns, found => (anns, found)
  | d :: rest, anns, found =>
    if d.confidence > t then
      drawLoop W H t rest (anns ++ [mkAnn W H d]) true
    else
      drawLoop W H t rest anns found

/-- Transport-level failures of requests.post, matching the except
clauses of lines 220-228. -/
inductive Transport where
  | timeout
  | connectionError
  | otherError
deriving DecidableEq

/-- Outcome of the POST of line 189.  In a response, the body field
models the later json() call of line 195: none = the body is not JSON
(json() raises), some none = JSON without a detections key, and
some (some ds) = JSON carrying the list ds. -/
inductive ApiResult where
  | response (status : ℕ) (body : Option (Option (List Detection)))
  | fail (e : Transport)
deriving DecidableEq

/-- The st.session_state fields read or written by process_frame. -/
structure SessionState where
  frame_count : ℕ
  detections : List Detection
  processed_frames : List (Frame × List Detection)
  frames_sent : ℕ
  frames_responded : ℕ
  last_frame_time : ℚ
deriving DecidableEq

/-- The initial session state of app.py lines 17-41. -/
def initState : SessionState := ⟨0, [], [], 0, 0, 0⟩

/-- The per-call environment of one process_frame call: the argument
frame (none models Python None), the time.time() value of line 178, the
success flag of cv2.imencode (line 169) and the outcome of the POST. -/
structure FrameInput where
  frame : Option Frame
  now : ℚ
  encodeOk : Bool
  api : ApiResult
deriving DecidableEq

/-- The frame_status messages emitted by process_frame, by emitting line;
the numeric payloads are the counter values interpolated in the text. -/
inductive StatusMsg where
  | invalidFrame (n : ℕ)
  | encodeFailed (n : ℕ)
  | sending (n : ℕ)
  | potholesDetected (n k : ℕ)
  | noPotholes (n : ℕ)
  | apiStatus (n code : ℕ)
  | apiTimeout (n : ℕ)
  | apiConnectionFailed (n : ℕ)
  | requestFailed (n : ℕ)
deriving DecidableEq

/-- The one exception that can escape process_frame: the attribute access
frame.shape on None at line 160, inside the logging call, before the
validity check of line 163. -/
inductive PyErr where
  | attributeError
deriving DecidableEq

/-- Result of a call: the returned (possibly annotated) frame, or an
exception that escaped to the caller. -/
inductive CallResult where
  | ok (frame : Frame)
  | raised (e : PyErr)
deriving DecidableEq

/-- Everything one process_frame call produces: the updated session
state, the status messages emitted, and the returned frame or escaped
exception. -/
structure StepOut where
  state : SessionState
  msgs : List StatusMsg
  result : CallResult
deriving DecidableEq

/-- Lines 205-219: draw every detection of the current session list above
the threshold onto the frame, and if any qualified append a copy of the
annotated frame together with a copy of the current detection list to
processed_frames. -/
def drawAndLog (s : SessionState) (frame : Frame) (msgs : List StatusMsg) : StepOut :=
  let res := drawLoop frame.width frame.height CONFIDENCE_THRESHOLD s.detections [] false
  let frame2 : Frame := ⟨frame.height, frame.width, frame.drawOps ++ res.1⟩
  if res.2 then
    ⟨{ s with processed_frames := s.processed_frames ++ [(frame2, s.detections)] },
     msgs, .ok frame2⟩
  else
    ⟨s, msgs, .ok frame2⟩

/-- Lines 190-219: the response handling inside the try block, after the
POST returned a response.  last_frame_time was already set by the caller
(line 190).  On status 200 the responded counter is incremented (line
193), the body is parsed (line 195, may raise into the generic except of
line 226) and the session detection list is replaced (line 196); on any
other status only a status message is emitted and the session detection
list is left as it was.  Both paths then fall through to the draw loop. -/
def respondPhase (s : SessionState) (frame : Frame) (status : ℕ)
    (body : Option (Option (List Detection))) (m : StatusMsg) : StepOut :=
  if status = 200 then
    let s1 := { s with frames_responded := s.frames_responded + 1 }
    match body with
    | none => ⟨s1, [m, .requestFailed s1.frames_sent], .ok frame⟩
    | some b =>
      let s2 := { s1 with detections := b.getD [] }
      let m2 := if s2.detections.isEmpty then StatusMsg.noPotholes s2.frames_responded
                else StatusMsg.potholesDetected s2.frames_responded s2.detections.length
      drawAndLog s2 frame [m, m2]
  else
    drawAndLog s frame [m, .apiStatus s.frames_sent status]

/-- Lines 183-228: the try block.  frames_sent is incremented (line 184)
before the POST; a transport exception jumps to the matching except
clause (lines 220-228), skipping the update of last_frame_time (line
190), the counter of line 193 and the whole draw/log section. -/
def sendPhase (s : SessionState) (inp : FrameInput) (frame : Frame) : StepOut :=
  let s1 := { s with frames_sent := s.frames_sent + 1 }
  match inp.api with
  | .fail .timeout =>
      ⟨s1, [.sending s1.frames_sent, .apiTimeout s1.frames_sent], .ok frame⟩
  | .fail .connectionError =>
      ⟨s1, [.sending s1.frames_sent, .apiConnectionFailed s1.frames_sent], .ok frame⟩
  | .fail .otherError =>
      ⟨s1, [.sending s1.frames_sent, .requestFailed s1.frames_sent], .ok frame⟩
  | .response status body =>
      respondPhase { s1 with last_frame_time := inp.now } frame status body
        (.sending s1.frames_sent)

/-- Lines 158-230: one call of process_frame.  The frame counter is
incremented first (line 159); a None frame then raises AttributeError at
the logging line 160; an empty frame is warned about and returned (lines
163-166); an encode failure is reported and the frame returned (lines
169-173); a frame arriving less than half a second after
last_frame_time is returned untouched (lines 178-180); otherwise the
frame is sent. -/
def process_frame (s : SessionState) (inp : FrameInput) : StepOut :=
  let s1 := { s with frame_count := s.frame_count + 1 }
  match inp.frame with
  | none => ⟨s1, [], .raised .attributeError⟩
  | some frame =>
    if frame.size = 0 then
      ⟨s1, [.invalidFrame s1.frame_count], .ok frame⟩
    else if inp.encodeOk = false then
      ⟨s1, [.encodeFailed s1.frame_count], .ok frame⟩
    else if inp.now - s1.last_frame_time < 1 / 2 then
      ⟨s1, [], .ok frame⟩
    else
      sendPhase s1 inp frame

/-- A sequence of process_frame calls from a starting state. -/
def runTrace (s : SessionState) : List FrameInput → SessionState
  | [] => s
  | inp :: rest => runTrace (process_frame s inp).state rest

/-- The guard conditions of lines 163-180: true exactly when the call
reaches the POST of line 189 (equivalently, when frames_sent is
incremented). -/
def willSend (s : SessionState) (inp : FrameInput) : Bool :=
  match inp.frame with
  | none => false
  | some frame =>
      !(frame.size == 0) && inp.encodeOk &&
        !(decide (inp.now - s.last_frame_time < 1 / 2))

/-- True when the POST outcome of a call is an HTTP 200 response. -/
def got200 (inp : FrameInput) : Bool :=
  match inp.api with
  | .response status _ => status == 200
  | .fail _ => false

/-- True when the POST outcome of a call is a response of any status,
rather than a transport exception. -/
def gotResponse (inp : FrameInput) : Bool :=
  match inp.api with
  | .response _ _ => true
  | _ => false

/-- True when none of the calls of the list reaches the POST. -/
def noSendRun (s : SessionState) : List FrameInput → Bool
  | [] => true
  | inp :: rest => !willSend s inp && noSendRun (process_frame s inp).state rest

/-- Stated from claim C2: the number of detections above the threshold
that the endpoint returned for this very frame (zero when the call got
no parseable 200 response). -/
def specQualCount (t : ℚ) (inp : FrameInput) : ℕ :=
  match inp.api with
  | .response status (some b) =>
      if status = 200 then (qualifyingDetections t (b.getD [])).length else 0
  | _ => 0

/-- Stated from claim C2: how many frames of a sequence come with at
least one qualifying detection of their own. -/
def specQualFrameCount (t : ℚ) (inps : List FrameInput) : ℕ :=
  (inps.filter (fun i => decide (0 < specQualCount t i))).length

/-
  Heap model for the copy semantics of line 219.  numpy frame buffers
  live in a heap and are reused in place by the capture widget, so the
  log must not alias them: frame.copy() allocates a fresh buffer holding
  the same pixels, and the log records the fresh address together with
  the detection list taken by value (detections.copy()).
-/

/-- A pixel buffer. -/
abbrev Pixels := List ℕ

/-- A heap address: an index into the list of allocated buffers. -/
abbrev Addr := ℕ

/-- Read the buffer at an address. -/
def heapRead (h : List Pixels) (a : Addr) : Pixels := h.getD a []

/-- Overwrite the buffer at an address in place (the capture widget
reusing a frame buffer). -/
def heapWrite (h : List Pixels) (a : Addr) (p : Pixels) : List Pixels := h.set a p

/-- Line 219: processed_frames.append((frame.copy(), detections.copy())).
frame.copy() allocates a fresh address (h.length) carrying the same
pixels as the source buffer; the record stores that fresh address and
the detection list by value. -/
def appendRecord (h : List Pixels) (log : List (Addr × List Detection))
    (src : Addr) (dets : List Detection) : List Pixels × List (Addr × List Detection) :=
  (h ++ [heapRead h src], log ++ [(h.length, dets)])

/-
  Concrete inputs used by the counterexamples and witnesses below.
-/

/-- A 640 x 480 frame (shape[0] = 480, shape[1] = 640), unannotated. -/
def fr640 : Frame := ⟨480, 640, []⟩

/-- An empty frame: numpy size 0. -/
def frEmpty : Frame := ⟨0, 640, []⟩

/-- A detection with confidence 0.2. -/
def dConf02 : Detection := ⟨"pothole", 2/10, 1, 2, 3, 4⟩

/-- A detection with confidence 0.5. -/
def dConf05 : Detection := ⟨"pothole", 5/10, 1, 2, 3, 4⟩

/-- A detection with confidence 0.51. -/
def dConf051 : Detection := ⟨"pothole", 51/100, 1, 2, 3, 4⟩

/-- A detection with confidence 0.9. -/
def dConf09 : Detection := ⟨"pothole", 9/10, 1, 2, 3, 4⟩

/-- A detection whose box has a coordinate with an odd y value, so that
scaling by 1.5 does not land on an integer. -/
def dOdd : Detection := ⟨"pothole", 9/10, 0, 1, 4, 3⟩

/-- A detection whose scaled coordinates are all integral at 640 x 480. -/
def dEven : Detection := ⟨"pothole", 1, 3, 2, 5, 4⟩

/-- A session that already received one qualifying detection from an
earlier 200 response (the session detection list is non-empty). -/
def sStale : SessionState := ⟨5, [dConf09], [], 3, 3, 100⟩

/-- A call whose POST comes back with HTTP 500 and no usable body. -/
def inpStatus500 : FrameInput := ⟨some fr640, 101, true, .response 500 none⟩

/-- A call whose POST comes back 200 with one qualifying detection. -/
def inp200one : FrameInput := ⟨some fr640, 100, true, .response 200 (some (some [dConf09]))⟩

/-- A call whose POST comes back 200 with one sub-threshold and one
qualifying detection. -/
def inp200mixed : FrameInput :=
  ⟨some fr640, 100, true, .response 200 (some (some [dConf02, dConf09]))⟩

/-- A call whose POST comes back 200 with the odd-coordinate detection. -/
def inpOdd : FrameInput := ⟨some fr640, 100, true, .response 200 (some (some [dOdd]))⟩

/-- A call whose POST times out. -/
def inpTimeout100 : FrameInput := ⟨some fr640, 100, true, .fail .timeout⟩

/-- A call arriving a tenth of a second after time 100, answered 200. -/
def inp200shortly : FrameInput :=
  ⟨some fr640, 1001/10, true, .response 200 (some (some []))⟩

/-- A call arriving exactly half a second after time 100, answered 200. -/
def inp200half : FrameInput :=
  ⟨some fr640, 201/2, true, .response 200 (some (some []))⟩

/-- A call answered 200 with a JSON body lacking the detections key. -/
def inpNoKey : FrameInput := ⟨some fr640, 100, true, .response 200 (some none)⟩

/-- A call carrying an empty frame. -/
def inpEmpty : FrameInput := ⟨some frEmpty, 100, true, .response 200 (some (some []))⟩

/-- A call carrying a None frame. -/
def inpNone : FrameInput := ⟨none, 100, true, .response 200 (some (some []))⟩

/-
  Helper lemmas about the embedded program.
-/

/-- The draw loop walks the list in order, appending exactly the drawing
operations of the detections above the threshold, and ends with the
potholes_detected flag raised exactly when one of them qualified. -/
theorem drawLoop_spec (W H : ℕ) (t : ℚ) (ds : List Detection) (anns : List Ann) (found : Bool) :
    drawLoop W H t ds anns found
      = (anns ++ (qualifyingDetections t ds).map (mkAnn W H),
         found || !(qualifyingDetections t ds).isEmpty) := by
  induction ds generalizing anns found with
  | nil => simp [drawLoop, qualifyingDetections]
  | cons d rest ih =>
    by_cases h : d.confidence > t
    · simp [drawLoop, qualifyingDetections, List.filter_cons, h, ih]
    · simp [drawLoop, qualifyingDetections, List.filter_cons, h, ih]

theorem drawAndLog_frames_sent (s : SessionState) (f : Frame) (m : List StatusMsg) :
    (drawAndLog s f m).state.frames_sent = s.frames_sent := by
  by_cases h : (drawLoop f.width f.height CONFIDENCE_THRESHOLD s.detections [] false).2 = true
  · simp [drawAndLog, h]
  · simp [drawAndLog, h]

theorem drawAndLog_frames_responded (s : SessionState) (f : Frame) (m : List StatusMsg) :
    (drawAndLog s f m).state.frames_responded = s.frames_responded := by
  by_cases h : (drawLoop f.width f.height CONFIDENCE_THRESHOLD s.detections [] false).2 = true
  · simp [drawAndLog, h]
  · simp [drawAndLog, h]

theorem drawAndLog_lft (s : SessionState) (f : Frame) (m : List StatusMsg) :
    (drawAndLog s f m).state.last_frame_time = s.last_frame_time := by
  by_cases h : (drawLoop f.width f.height CONFIDENCE_THRESHOLD s.detections [] false).2 = true
  · simp [drawAndLog, h]
  · simp [drawAndLog, h]

theorem drawAndLog_detections (s : SessionState) (f : Frame) (m : List StatusMsg) :
    (drawAndLog s f m).state.detections = s.detections := by
  by_cases h : (drawLoop f.width f.height CONFIDENCE_THRESHOLD s.detections [] false).2 = true
  · simp [drawAndLog, h]
  · simp [drawAndLog, h]

theorem respondPhase_frames_sent (s : SessionState) (f : Frame) (status : ℕ)
    (body : Option (Option (List Detection))) (m : StatusMsg) :
    (respondPhase s f status body m).state.frames_sent = s.frames_sent := by
  cases body with
  | none =>
    by_cases h : status = 200 <;> simp [respondPhase, h, drawAndLog_frames_sent]
  | some b =>
    by_cases h : status = 200 <;> simp [respondPhase, h, drawAndLog_frames_sent]

theorem respondPhase_lft (s : SessionState) (f : Frame) (status : ℕ)
    (body : Option (Option (List Detection))) (m : StatusMsg) :
    (respondPhase s f status body m).state.last_frame_time = s.last_frame_time := by
  cases body with
  | none =>
    by_cases h : status = 200 <;> simp [respondPhase, h, drawAndLog_lft]
  | some b =>
    by_cases h : status = 200 <;> simp [respondPhase, h, drawAndLog_lft]

theorem respondPhase_frames_responded (s : SessionState) (f : Frame) (status : ℕ)
    (body : Option (Option (List Detection))) (m : StatusMsg) :
    (respondPhase s f status body m).state.frames_responded
      = s.frames_responded + (if status = 200 then 1 else 0) := by
  cases body with
  | none =>
    by_cases h : status = 200 <;> simp [respondPhase, h, drawAndLog_frames_responded]
  | some b =>
    by_cases h : status = 200 <;> simp [respondPhase, h, drawAndLog_frames_responded]

theorem sendPhase_frames_sent (s : SessionState) (inp : FrameInput) (f : Frame) :
    (sendPhase s inp f).state.frames_sent = s.frames_sent + 1 := by
  cases hapi : inp.api with
  | response status body =>
    simp [sendPhase, hapi, respondPhase_frames_sent]
  | fail e => cases e <;> simp [sendPhase, hapi]

theorem sendPhase_frames_responded (s : SessionState) (inp : FrameInput) (f : Frame) :
    (sendPhase s inp f).state.frames_responded
      = s.frames_responded + (if got200 inp then 1 else 0) := by
  cases hapi : inp.api with
  | response status body =>
    simp only [sendPhase, hapi, respondPhase_frames_responded, got200]
    by_cases h : status = 200 <;> simp [h]
  | fail e => cases e <;> simp [sendPhase, got200, hapi]

theorem sendPhase_lft_response (s : SessionState) (inp : FrameInput) (f : Frame)
    (hr : gotResponse inp = true) :
    (sendPhase s inp f).state.last_frame_time = inp.now := by
  cases hapi : inp.api with
  | response status body =>
    simp [sendPhase, hapi, respondPhase_lft]
  | fail e => simp [gotResponse, hapi] at hr

/-- Unpacking a passed guard: the frame is non-empty, the encode
succeeded, and at least half a second passed since last_frame_time. -/
theorem willSend_true_elim (s : SessionState) (inp : FrameInput) (f : Frame)
    (hf : inp.frame = some f) (hw : willSend s inp = true) :
    ¬f.size = 0 ∧ inp.encodeOk = true ∧ ¬(inp.now - s.last_frame_time < 1 / 2) := by
  unfold willSend at hw
  rw [hf] at hw
  simp only [Bool.and_eq_true, Bool.not_eq_true', beq_eq_false_iff_ne, ne_eq,
    decide_eq_false_iff_not, not_lt] at hw
  exact ⟨hw.1.1, hw.1.2, not_lt.mpr hw.2⟩

/-- Packing the guard conditions. -/
theorem willSend_of (s : SessionState) (inp : FrameInput) (f : Frame)
    (hf : inp.frame = some f) (h1 : ¬f.size = 0) (h2 : inp.encodeOk = true)
    (h3 : ¬(inp.now - s.last_frame_time < 1 / 2)) : willSend s inp = true := by
  unfold willSend
  rw [hf]
  simp only [Bool.and_eq_true, Bool.not_eq_true', beq_eq_false_iff_ne, ne_eq,
    decide_eq_false_iff_not, not_lt]
  exact ⟨⟨h1, h2⟩, not_lt.mp h3⟩

/-- When the guards of lines 163-180 reject a call, the only state
change is the frame counter of line 159. -/
theorem process_frame_no_send (s : SessionState) (inp : FrameInput)
    (hw : willSend s inp = false) :
    (process_frame s inp).state = { s with frame_count := s.frame_count + 1 } := by
  simp only [process_frame]
  split
  · rfl
  · rename_i frame hf
    split
    · rfl
    · rename_i h1
      split
      · rfl
      · rename_i h2
        split
        · rfl
        · rename_i h3
          exfalso
          have h2' : inp.encodeOk = true := by
            revert h2; cases inp.encodeOk <;> simp
          have h3' : ¬(inp.now - s.last_frame_time < 1 / 2) := h3
          rw [willSend_of s inp frame hf h1 h2' h3'] at hw
          exact absurd hw (by simp)

/-- When the guards pass a call, the call is exactly the send phase on
the state with the frame counter already incremented. -/
theorem process_frame_eq_sendPhase (s : SessionState) (inp : FrameInput) (f : Frame)
    (hf : inp.frame = some f) (hw : willSend s inp = true) :
    process_frame s inp = sendPhase { s with frame_count := s.frame_count + 1 } inp f := by
  obtain ⟨h1, h2, h3⟩ := willSend_true_elim s inp f hf hw
  simp only [process_frame]
  split
  · rename_i hnone; rw [hf] at hnone; exact absurd hnone (by simp)
  · rename_i frame hfr
    rw [hf] at hfr
    injection hfr with hfr
    subst hfr
    split
    · rename_i hsz; exact absurd hsz h1
    · split
      · rename_i henc; rw [h2] at henc; exact absurd henc (by simp)
      · rfl

/-- A call that passes the guards carries an actual frame. -/
theorem willSend_some (s : SessionState) (inp : FrameInput)
    (hw : willSend s inp = true) : ∃ f, inp.frame = some f := by
  cases hf : inp.frame with
  | none => unfold willSend at hw; rw [hf] at hw; exact absurd hw (by simp)
  | some f => exact ⟨f, rfl⟩

/-- Closed form of the draw/log section (lines 205-219): the returned
frame carries one new drawing operation per qualifying detection of the
current session list, and the log grows by one record, holding that
annotated frame and the full current session list, exactly when a
detection qualified. -/
theorem drawAndLog_spec (s : SessionState) (f : Frame) (m : List StatusMsg) :
    drawAndLog s f m
      = ⟨{ s with processed_frames := s.processed_frames ++
            (if (qualifyingDetections CONFIDENCE_THRESHOLD s.detections).isEmpty then []
             else [(⟨f.height, f.width, f.drawOps ++
                     (qualifyingDetections CONFIDENCE_THRESHOLD s.detections).map
                       (mkAnn f.width f.height)⟩, s.detections)]) },
         m,
         .ok ⟨f.height, f.width, f.drawOps ++
               (qualifyingDetections CONFIDENCE_THRESHOLD s.detections).map
                 (mkAnn f.width f.height)⟩⟩ := by
  unfold drawAndLog
  rw [drawLoop_spec]
  by_cases h : (qualifyingDetections CONFIDENCE_THRESHOLD s.detections).isEmpty
  · simp [h]
  · simp [h]

/-- The try block on a 200 response with a parseable JSON body. -/
theorem sendPhase_200 (s : SessionState) (inp : FrameInput) (f : Frame)
    (b : Option (List Detection)) (hapi : inp.api = .response 200 (some b)) :
    sendPhase s inp f
      = drawAndLog
          { s with frames_sent := s.frames_sent + 1, last_frame_time := inp.now,
                   frames_responded := s.frames_responded + 1, detections := b.getD [] }
          f
          [.sending (s.frames_sent + 1),
           if (b.getD []).isEmpty then .noPotholes (s.frames_responded + 1)
           else .potholesDetected (s.frames_responded + 1) (b.getD []).length] := by
  simp [sendPhase, hapi, respondPhase]

/-- The try block on a response whose status is not 200: the session
detection list is left as it was, and the draw/log section still runs
on it. -/
theorem sendPhase_non200 (s : SessionState) (inp : FrameInput) (f : Frame)
    (status : ℕ) (body : Option (Option (List Detection)))
    (hapi : inp.api = .response status body) (hst : ¬status = 200) :
    sendPhase s inp f
      = drawAndLog { s with frames_sent := s.frames_sent + 1, last_frame_time := inp.now } f
          [.sending (s.frames_sent + 1), .apiStatus (s.frames_sent + 1) status] := by
  simp only [sendPhase, hapi, respondPhase, if_neg hst]

/-- A call that does not reach the POST leaves last_frame_time alone. -/
theorem lft_no_send (s : SessionState) (inp : FrameInput)
    (hw : willSend s inp = false) :
    (process_frame s inp).state.last_frame_time = s.last_frame_time := by
  rw [process_frame_no_send s inp hw]

/-- A transmitted call whose POST returns a response (any status) sets
last_frame_time to the capture time of that call (line 190). -/
theorem lft_response (s : SessionState) (inp : FrameInput)
    (hw : willSend s inp = true) (hr : gotResponse inp = true) :
    (process_frame s inp).state.last_frame_time = inp.now := by
  obtain ⟨f, hf⟩ := willSend_some s inp hw
  rw [process_frame_eq_sendPhase s inp f hf hw, sendPhase_lft_response _ _ _ hr]

/-- A run of calls that never reaches the POST never touches
last_frame_time. -/
theorem noSendRun_lft (mid : List FrameInput) (s : SessionState)
    (h : noSendRun s mid = true) :
    (runTrace s mid).last_frame_time = s.last_frame_time := by
  induction mid generalizing s with
  | nil => rfl
  | cons inp rest ih =>
    unfold noSendRun at h
    simp only [Bool.and_eq_true, Bool.not_eq_true'] at h
    unfold runTrace
    rw [ih _ h.2, lft_no_send _ _ h.1]

/-- A call passes the rate gate only half a second or more after
last_frame_time. -/
theorem willSend_rate (s : SessionState) (inp : FrameInput)
    (hw : willSend s inp = true) :
    1 / 2 ≤ inp.now - s.last_frame_time := by
  obtain ⟨f, hf⟩ := willSend_some s inp hw
  exact not_lt.mp (willSend_true_elim s inp f hf hw).2.2

/-- frames_sent grows by one exactly on the calls that reach the POST. -/
theorem frames_sent_step (s : SessionState) (inp : FrameInput) :
    (process_frame s inp).state.frames_sent
      = s.frames_sent + (if willSend s inp then 1 else 0) := by
  cases hw : willSend s inp
  · rw [process_frame_no_send s inp hw]; simp
  · obtain ⟨f, hf⟩ := willSend_some s inp hw
    rw [process_frame_eq_sendPhase s inp f hf hw, sendPhase_frames_sent]; simp

/-- frames_responded grows by one exactly on the calls that reach the
POST and get a 200 back. -/
theorem frames_responded_step (s : SessionState) (inp : FrameInput) :
    (process_frame s inp).state.frames_responded
      = s.frames_responded + (if willSend s inp && got200 inp then 1 else 0) := by
  cases hw : willSend s inp
  · rw [process_frame_no_send s inp hw]; simp
  · obtain ⟨f, hf⟩ := willSend_some s inp hw
    rw [process_frame_eq_sendPhase s inp f hf hw, sendPhase_frames_responded]; simp

/-- The counter inequality is preserved along any trace. -/
theorem counters_le_trace (inps : List FrameInput) (s : SessionState)
    (h : s.frames_responded ≤ s.frames_sent) :
    (runTrace s inps).frames_responded ≤ (runTrace s inps).frames_sent := by
  induction inps generalizing s with
  | nil => exact h
  | cons inp rest ih =>
    unfold runTrace
    refine ih _ ?_
    rw [frames_sent_step, frames_responded_step]
    cases hw : willSend s inp <;> cases hg : got200 inp <;> simp <;> omega

/-
  Claims.
-/

/-- Claim C10: frames_responded is incremented exactly on the calls
whose POST returns HTTP 200, frames_sent is incremented on every
attempted transmission before the POST, and frames_responded stays
below or equal to frames_sent along every trace. -/
theorem C10_counter_invariant :
    (∀ (s : SessionState) (inp : FrameInput),
        (process_frame s inp).state.frames_sent
          = s.frames_sent + (if willSend s inp then 1 else 0))
    ∧ (∀ (s : SessionState) (inp : FrameInput),
        (process_frame s inp).state.frames_responded
          = s.frames_responded + (if willSend s inp && got200 inp then 1 else 0))
    ∧ (∀ (s0 : SessionState) (inps : List FrameInput),
        s0.frames_responded ≤ s0.frames_sent →
        (runTrace s0 inps).frames_responded ≤ (runTrace s0 inps).frames_sent) :=
  ⟨frames_sent_step, frames_responded_step, fun _ inps h => counters_le_trace inps _ h⟩

/-- Witness for C10 at a concrete trace. -/
theorem C10_counter_invariant_witness :
    initState.frames_responded ≤ initState.frames_sent
    ∧ (runTrace initState [inpTimeout100]).frames_responded
        ≤ (runTrace initState [inpTimeout100]).frames_sent :=
  ⟨Nat.le_refl 0, C10_counter_invariant.2.2 initState [inpTimeout100] (Nat.le_refl 0)⟩

/-- Claim C6: exactly the detections whose confidence strictly exceeds
the threshold are drawn and counted as qualifying; the comparison is
strict, so with confidences 0.2, 0.5, 0.51, 0.9 and threshold 0.5
exactly the 0.51 and 0.9 detections qualify. -/
theorem C6_strict_threshold_filtering :
    (∀ (t : ℚ) (ds : List Detection) (d : Detection),
        d ∈ qualifyingDetections t ds ↔ d ∈ ds ∧ d.confidence > t)
    ∧ (∀ (W H : ℕ) (t : ℚ) (ds : List Detection),
        drawLoop W H t ds [] false
          = ((qualifyingDetections t ds).map (mkAnn W H),
             !(qualifyingDetections t ds).isEmpty))
    ∧ qualifyingDetections (1/2) [dConf02, dConf05, dConf051, dConf09] = [dConf051, dConf09]
    ∧ ¬(dConf05.confidence > (1/2 : ℚ)) := by
  refine ⟨?_, ?_, ?_, ?_⟩
  · intro t ds d
    simp [qualifyingDetections, List.mem_filter]
  · intro W H t ds
    rw [drawLoop_spec]
    simp
  · norm_num [qualifyingDetections, List.filter, dConf02, dConf05, dConf051, dConf09]
  · norm_num [dConf05]

/-- Claim C9: the log record made from a source buffer holds a fresh
copy of its pixels and the detection list by value, so overwriting the
source buffer afterwards changes neither the pixels at the record
address nor the recorded detections. -/
theorem C9_log_copy_independence (h : List Pixels) (log : List (Addr × List Detection))
    (src : Addr) (dets : List Detection) (hs : src < h.length) (new : Pixels) :
    heapRead (appendRecord h log src dets).1 h.length = heapRead h src
    ∧ heapRead (heapWrite (appendRecord h log src dets).1 src new) h.length = heapRead h src
    ∧ (appendRecord h log src dets).2 = log ++ [(h.length, dets)] := by
  refine ⟨?_, ?_, rfl⟩
  · simp [appendRecord, heapRead, List.getD_eq_getElem?_getD, List.getElem?_concat_length]
  · have hne : src ≠ h.length := Nat.ne_of_lt hs
    simp [appendRecord, heapRead, heapWrite, List.getD_eq_getElem?_getD,
      List.getElem?_set_ne hne, List.getElem?_concat_length]

/-- Witness for C9 at a concrete heap. -/
theorem C9_log_copy_independence_witness :
    0 < ([[1, 2]] : List Pixels).length
    ∧ (heapRead (appendRecord [[1, 2]] [] 0 []).1 1 = heapRead [[1, 2]] 0
       ∧ heapRead (heapWrite (appendRecord [[1, 2]] [] 0 []).1 0 [7]) 1 = heapRead [[1, 2]] 0
       ∧ (appendRecord [[1, 2]] [] 0 []).2 = [] ++ [(1, [])]) :=
  ⟨Nat.zero_lt_one, C9_log_copy_independence [[1, 2]] [] 0 [] Nat.zero_lt_one [7]⟩

/-- Claim C8: a 200 response whose JSON body lacks the detections key is
treated as an empty detection list: the session list becomes empty, no
box is drawn, nothing is appended to the log, the frame is returned,
and the only messages are the sending notice and the
no-potholes notice. -/
theorem C8_missing_detections_key (s : SessionState) (f : Frame) (inp : FrameInput)
    (hf : inp.frame = some f) (hw : willSend s inp = true)
    (hapi : inp.api = .response 200 (some none)) :
    (process_frame s inp).state.detections = []
    ∧ (process_frame s inp).state.processed_frames = s.processed_frames
    ∧ (process_frame s inp).result = .ok f
    ∧ (process_frame s inp).msgs
        = [.sending (s.frames_sent + 1), .noPotholes (s.frames_responded + 1)] := by
  rw [process_frame_eq_sendPhase s inp f hf hw, sendPhase_200 _ _ _ none hapi,
    drawAndLog_spec]
  simp [qualifyingDetections]

/-- Witness for C8 at a concrete call. -/
theorem C8_missing_detections_key_witness :
    (inpNoKey.frame = some fr640 ∧ willSend initState inpNoKey = true
      ∧ inpNoKey.api = .response 200 (some none))
    ∧ ((process_frame initState inpNoKey).state.detections = []
       ∧ (process_frame initState inpNoKey).state.processed_frames = initState.processed_frames
       ∧ (process_frame initState inpNoKey).result = .ok fr640
       ∧ (process_frame initState inpNoKey).msgs
           = [.sending (initState.frames_sent + 1), .noPotholes (initState.frames_responded + 1)]) :=
  ⟨⟨rfl, by norm_num [willSend, inpNoKey, initState, fr640, Frame.size], rfl⟩,
   C8_missing_detections_key initState fr640 inpNoKey rfl
     (by norm_num [willSend, inpNoKey, initState, fr640, Frame.size]) rfl⟩

/-- Counterexample to claim C3 as stated: a record is appended whose
stored detection list is the full endpoint list, including a detection
whose confidence does not exceed the threshold. -/
theorem C3_full_list_stored_cex :
    (process_frame initState inp200mixed).state.processed_frames
      = [(⟨480, 640, [mkAnn 640 480 dConf09]⟩, [dConf02, dConf09])]
    ∧ dConf02 ∈ [dConf02, dConf09]
    ∧ ¬(dConf02.confidence > CONFIDENCE_THRESHOLD) := by
  refine ⟨?_, by simp, by norm_num [dConf02, CONFIDENCE_THRESHOLD]⟩
  norm_num [process_frame, sendPhase, respondPhase, drawAndLog, drawLoop, initState,
    inp200mixed, fr640, Frame.size, CONFIDENCE_THRESHOLD, dConf02, dConf09]

/-- Claim C3 as amended: a record is appended exactly when some returned
detection qualifies, and the record then stores the full returned list,
not the qualifying subset; only the drawing operations are restricted
to the qualifying subset. -/
theorem C3_stored_list_is_full_response (s : SessionState) (f : Frame) (inp : FrameInput)
    (ds : List Detection) (hf : inp.frame = some f) (hw : willSend s inp = true)
    (hapi : inp.api = .response 200 (some (some ds))) :
    ((qualifyingDetections CONFIDENCE_THRESHOLD ds).isEmpty = true →
        (process_frame s inp).state.processed_frames = s.processed_frames)
    ∧ ((qualifyingDetections CONFIDENCE_THRESHOLD ds).isEmpty = false →
        (process_frame s inp).state.processed_frames
          = s.processed_frames
              ++ [(⟨f.height, f.width,
                    f.drawOps ++ (qualifyingDetections CONFIDENCE_THRESHOLD ds).map
                      (mkAnn f.width f.height)⟩, ds)]) := by
  rw [process_frame_eq_sendPhase s inp f hf hw, sendPhase_200 _ _ _ (some ds) hapi,
    drawAndLog_spec]
  constructor
  · intro hq; simp [hq]
  · intro hq; simp [hq]

/-- Witness for the amended C3 at a concrete call. -/
theorem C3_stored_list_is_full_response_witness :
    (inp200mixed.frame = some fr640 ∧ willSend initState inp200mixed = true
      ∧ inp200mixed.api = .response 200 (some (some [dConf02, dConf09]))
      ∧ (qualifyingDetections CONFIDENCE_THRESHOLD [dConf02, dConf09]).isEmpty = false)
    ∧ (process_frame initState inp200mixed).state.processed_frames
        = initState.processed_frames
            ++ [(⟨fr640.height, fr640.width,
                  fr640.drawOps ++ (qualifyingDetections CONFIDENCE_THRESHOLD
                    [dConf02, dConf09]).map (mkAnn fr640.width fr640.height)⟩,
                 [dConf02, dConf09])] :=
  ⟨⟨rfl, by norm_num [willSend, inp200mixed, initState, fr640, Frame.size],
    rfl, by norm_num [qualifyingDetections, dConf02, dConf09, CONFIDENCE_THRESHOLD]⟩,
   (C3_stored_list_is_full_response initState fr640 inp200mixed [dConf02, dConf09] rfl
      (by norm_num [willSend, inp200mixed, initState, fr640, Frame.size]) rfl).2
     (by norm_num [qualifyingDetections, dConf02, dConf09, CONFIDENCE_THRESHOLD])⟩

/-- Counterexample to claim C4 as stated: a call with an empty
(zero-size) frame raises nothing at all; it returns the frame with a
warning status, and only the frame counter changes. -/
theorem C4_empty_frame_no_raise_cex :
    (process_frame initState inpEmpty).result = .ok frEmpty
    ∧ (process_frame initState inpEmpty).msgs = [.invalidFrame 1]
    ∧ (process_frame initState inpEmpty).state = { initState with frame_count := 1 } := by
  norm_num [process_frame, initState, inpEmpty, frEmpty, Frame.size]

/-- Claim C4 as amended: an empty frame is warned about and returned
without an exception, leaving everything but the frame counter alone;
a None frame raises AttributeError (there is no InvalidFrameError) from
the logging line, again leaving everything but the frame counter
alone. -/
theorem C4_invalid_frame_behaviour :
    (∀ (s : SessionState) (inp : FrameInput) (f : Frame),
        inp.frame = some f → f.size = 0 →
        process_frame s inp
          = ⟨{ s with frame_count := s.frame_count + 1 },
             [.invalidFrame (s.frame_count + 1)], .ok f⟩)
    ∧ (∀ (s : SessionState) (inp : FrameInput),
        inp.frame = none →
        process_frame s inp
          = ⟨{ s with frame_count := s.frame_count + 1 }, [],
             .raised .attributeError⟩) := by
  constructor
  · intro s inp f hf hsz
    simp only [process_frame]
    split
    · rename_i hnone; rw [hf] at hnone; exact absurd hnone (by simp)
    · rename_i fr hfr
      rw [hf] at hfr
      injection hfr with hfr
      subst hfr
      rw [if_pos hsz]
  · intro s inp hn
    simp only [process_frame]
    split
    · rfl
    · rename_i fr hfr; rw [hn] at hfr; exact absurd hfr (by simp)

/-- Witness for the amended C4 at concrete calls. -/
theorem C4_invalid_frame_behaviour_witness :
    (inpEmpty.frame = some frEmpty ∧ frEmpty.size = 0 ∧ inpNone.frame = none)
    ∧ process_frame initState inpEmpty
        = ⟨{ initState with frame_count := initState.frame_count + 1 },
           [.invalidFrame (initState.frame_count + 1)], .ok frEmpty⟩
    ∧ process_frame initState inpNone
        = ⟨{ initState with frame_count := initState.frame_count + 1 }, [],
           .raised .attributeError⟩ :=
  ⟨⟨rfl, rfl, rfl⟩,
   C4_invalid_frame_behaviour.1 initState inpEmpty frEmpty rfl rfl,
   C4_invalid_frame_behaviour.2 initState inpNone rfl⟩

/-- A rational that is an integer passes through Python int()
unchanged. -/
theorem pyInt_intCast (z : ℤ) : pyInt (z : ℚ) = z := by
  simp [pyInt, Rat.num_intCast, Rat.den_intCast, Int.tdiv_one]

/-- Counterexample to claim C5 as stated: for the detection with
y_min = 1 on a 640 x 480 frame the drawn y coordinate is 1, not the
exact value 1.5 * y_min = 3/2 that the claim demands. -/
theorem C5_truncation_cex :
    (process_frame initState inpOdd).result
      = .ok ⟨480, 640, [⟨0, 1, 8, 4, "pothole", 9/10⟩]⟩
    ∧ ((1 : ℚ) ≠ (3/2) * dOdd.y_min) := by
  constructor
  · norm_num [process_frame, sendPhase, respondPhase, drawAndLog, drawLoop, mkAnn,
      scaledBox, pyInt, initState, inpOdd, fr640, Frame.size, CONFIDENCE_THRESHOLD,
      dOdd]
    decide
  · norm_num [dOdd]

/-- Claim C5 as amended: the drawn box uses the independent scale
factors W/320 and H/320, with every scaled coordinate truncated to an
integer by Python int(); at 640 x 480 the box is the truncation of
(2 x_min, 1.5 y_min, 2 x_max, 1.5 y_max), which is exact whenever those
products are integers. -/
theorem C5_rescale_truncated :
    (∀ d : Detection,
        scaledBox 640 480 d
          = (pyInt (2 * d.x_min), pyInt ((3/2) * d.y_min),
             pyInt (2 * d.x_max), pyInt ((3/2) * d.y_max)))
    ∧ (∀ (d : Detection) (a b c e : ℤ),
        2 * d.x_min = (a : ℚ) → (3/2) * d.y_min = (b : ℚ) →
        2 * d.x_max = (c : ℚ) → (3/2) * d.y_max = (e : ℚ) →
        scaledBox 640 480 d = (a, b, c, e)) := by
  have hsx : ((640 : ℕ) : ℚ) / 320 = 2 := by norm_num
  have hsy : ((480 : ℕ) : ℚ) / 320 = 3/2 := by norm_num
  have h1 : ∀ d : Detection,
      scaledBox 640 480 d
        = (pyInt (2 * d.x_min), pyInt ((3/2) * d.y_min),
           pyInt (2 * d.x_max), pyInt ((3/2) * d.y_max)) := by
    intro d
    simp only [scaledBox, hsx, hsy]
    rw [mul_comm d.x_min 2, mul_comm d.y_min (3/2), mul_comm d.x_max 2,
      mul_comm d.y_max (3/2)]
  refine ⟨h1, ?_⟩
  intro d a b c e ha hb hc he
  rw [h1 d, ha, hb, hc, he, pyInt_intCast, pyInt_intCast, pyInt_intCast, pyInt_intCast]

/-- Witness for the amended C5 at a concrete detection. -/
theorem C5_rescale_truncated_witness :
    (2 * dEven.x_min = ((6 : ℤ) : ℚ) ∧ (3/2) * dEven.y_min = ((3 : ℤ) : ℚ)
      ∧ 2 * dEven.x_max = ((10 : ℤ) : ℚ) ∧ (3/2) * dEven.y_max = ((6 : ℤ) : ℚ))
    ∧ scaledBox 640 480 dEven = (6, 3, 10, 6) :=
  ⟨⟨by norm_num [dEven], by norm_num [dEven], by norm_num [dEven], by norm_num [dEven]⟩,
   C5_rescale_truncated.2 dEven 6 3 10 6 (by norm_num [dEven]) (by norm_num [dEven])
     (by norm_num [dEven]) (by norm_num [dEven])⟩

/-- Counterexample to claim C7 as stated: a transmission that fails at
the transport level does not update last_frame_time (line 190 is
skipped by the exception), so the very next frame, arriving only a
tenth of a second later, is transmitted as well. -/
theorem C7_governor_not_rearmed_cex :
    willSend initState inpTimeout100 = true
    ∧ (process_frame initState inpTimeout100).state.frames_sent = 1
    ∧ willSend (process_frame initState inpTimeout100).state inp200shortly = true
    ∧ (process_frame (process_frame initState inpTimeout100).state
         inp200shortly).state.frames_sent = 2
    ∧ inp200shortly.now - inpTimeout100.now < 1/2 := by
  norm_num [willSend, process_frame, sendPhase, respondPhase, drawAndLog, drawLoop,
    initState, inpTimeout100, inp200shortly, fr640, Frame.size, qualifyingDetections,
    CONFIDENCE_THRESHOLD]

/-- Claim C7 as amended: at least half a second elapses between a
transmitted frame whose POST came back with a response (any status) and
the next transmitted frame; only a transport exception leaves the rate
governor un-armed. -/
theorem C7_rate_governor_after_response (s : SessionState) (inp1 : FrameInput)
    (mid : List FrameInput) (inp2 : FrameInput)
    (h1 : willSend s inp1 = true) (hr : gotResponse inp1 = true)
    (hm : noSendRun (process_frame s inp1).state mid = true)
    (h2 : willSend (runTrace (process_frame s inp1).state mid) inp2 = true) :
    1 / 2 ≤ inp2.now - inp1.now := by
  have hlft : (runTrace (process_frame s inp1).state mid).last_frame_time = inp1.now := by
    rw [noSendRun_lft mid _ hm, lft_response s inp1 h1 hr]
  have hrate := willSend_rate _ inp2 h2
  rw [hlft] at hrate
  exact hrate

/-- Witness for the amended C7 at a concrete pair of calls. -/
theorem C7_rate_governor_after_response_witness :
    (willSend initState inp200one = true ∧ gotResponse inp200one = true
      ∧ noSendRun (process_frame initState inp200one).state [] = true
      ∧ willSend (runTrace (process_frame initState inp200one).state []) inp200half = true)
    ∧ 1 / 2 ≤ inp200half.now - inp200one.now :=
  ⟨⟨by norm_num [willSend, inp200one, initState, fr640, Frame.size], rfl, rfl,
    by norm_num [willSend, runTrace, process_frame, sendPhase, respondPhase, drawAndLog,
      drawLoop, inp200one, inp200half, initState, fr640, Frame.size, qualifyingDetections,
      CONFIDENCE_THRESHOLD, dConf09]⟩,
   C7_rate_governor_after_response initState inp200one [] inp200half
     (by norm_num [willSend, inp200one, initState, fr640, Frame.size]) rfl rfl
     (by norm_num [willSend, runTrace, process_frame, sendPhase, respondPhase, drawAndLog,
       drawLoop, inp200one, inp200half, initState, fr640, Frame.size, qualifyingDetections,
       CONFIDENCE_THRESHOLD, dConf09])⟩

/-- Claim C1, evaluated at the failing input: after a frame whose 200
response carried a qualifying detection, a frame whose POST comes back
with HTTP 500 is not treated as having zero detections; the stale
session list is drawn onto it and it is appended to the log, even
though the endpoint returned no detection for it. -/
theorem C1_stale_detections_on_non200 :
    (process_frame sStale inpStatus500).msgs = [.sending 4, .apiStatus 4 500]
    ∧ (process_frame sStale inpStatus500).state.processed_frames
        = [(⟨480, 640, [mkAnn 640 480 dConf09]⟩, [dConf09])]
    ∧ (process_frame sStale inpStatus500).result
        = .ok ⟨480, 640, [mkAnn 640 480 dConf09]⟩
    ∧ specQualCount CONFIDENCE_THRESHOLD inpStatus500 = 0 := by
  norm_num [process_frame, sendPhase, respondPhase, drawAndLog, drawLoop, sStale,
    inpStatus500, fr640, Frame.size, CONFIDENCE_THRESHOLD, dConf09, specQualCount]

/-- Claim C2, evaluated at the failing trace: two processed frames, of
which only the first had a qualifying detection of its own (the second
got HTTP 500), leave a log of length 2 while the claimed count is 1. -/
theorem C2_retention_invariant_violated :
    (runTrace initState [inp200one, inpStatus500]).processed_frames.length = 2
    ∧ specQualFrameCount CONFIDENCE_THRESHOLD [inp200one, inpStatus500] = 1 := by
  norm_num [runTrace, process_frame, sendPhase, respondPhase, drawAndLog, drawLoop,
    initState, inp200one, inpStatus500, fr640, Frame.size, CONFIDENCE_THRESHOLD,
    dConf09, specQualFrameCount, specQualCount, qualifyingDetections]

/-- Witness for C6 at a concrete threshold and list. -/
theorem C6_strict_threshold_filtering_witness :
    (dConf051 ∈ qualifyingDetections (1/2) [dConf02, dConf05, dConf051, dConf09]
      ↔ dConf051 ∈ [dConf02, dConf05, dConf051, dConf09]
          ∧ dConf051.confidence > (1/2 : ℚ))
    ∧ drawLoop 640 480 (1/2) [dConf02, dConf05, dConf051, dConf09] [] false
        = ((qualifyingDetections (1/2) [dConf02, dConf05, dConf051, dConf09]).map
             (mkAnn 640 480),
           !(qualifyingDetections (1/2) [dConf02, dConf05, dConf051, dConf09]).isEmpty) :=
  ⟨C6_strict_threshold_filtering.1 (1/2) [dConf02, dConf05, dConf051, dConf09] dConf051,
   C6_strict_threshold_filtering.2.1 640 480 (1/2) [dConf02, dConf05, dConf051, dConf09]⟩
